import Mathlib

/-!
The self-filtering pipeline of realtime_urdf_filter, `src/urdf_filter.cpp`.

A shallow embedding of `RealtimeURDFFilter` and theorems about it.

Conventions of the embedding:

* `double` and `float` values are rationals (`ℚ`): arithmetic is exact, a
  C++ cast `float(x)` is the identity.
* C arrays (`double glTf[16]`, `CameraInfo::P`) are functions `Nat → ℚ`,
  a store `a[i] = v` is `setIdx a i v`.
* Byte buffers are lists of naturals `< 256`, or memory functions `Nat → Nat`
  while they are being written.
* The object state is a record that every member function takes and returns.
  What the code obtains from outside (subscriber counts, the tf lookup, the
  GL error state, what the GPU rasterises) is passed in as a `FrameEnv`.
* Members that the constructor leaves unassigned (`width_`, `height_`) are
  parameters of the constructed state.
-/

namespace UrdfFilter

/-! ## Arrays and 4x4 matrices -/

/-- The store `a[i] = v` on a C array. -/
def setIdx (a : Nat → ℚ) (i : Nat) (v : ℚ) : Nat → ℚ :=
  fun j => if j = i then v else a j

/-- A homogeneous 4-vector. -/
structure Vec4 where
  x : ℚ
  y : ℚ
  z : ℚ
  w : ℚ

/-- Entry `(row r, column c)` of a column-major OpenGL matrix. -/
def entry (m : Nat → ℚ) (r c : Nat) : ℚ := m (c * 4 + r)

/-- The identity matrix loaded by `glLoadIdentity`. -/
def identity16 : Nat → ℚ :=
  fun i => if i = 0 ∨ i = 5 ∨ i = 10 ∨ i = 15 then 1 else 0

/-- The current matrix after `glMultMatrixd (m)`: `cur * m`, column-major. -/
def glMultMatrixd (cur m : Nat → ℚ) : Nat → ℚ :=
  fun i =>
    if i < 16 then
      entry cur (i % 4) 0 * entry m 0 (i / 4) + entry cur (i % 4) 1 * entry m 1 (i / 4)
        + entry cur (i % 4) 2 * entry m 2 (i / 4) + entry cur (i % 4) 3 * entry m 3 (i / 4)
    else 0

/-- A column-major matrix applied to a column vector. -/
def mulVec (m : Nat → ℚ) (v : Vec4) : Vec4 :=
  { x := entry m 0 0 * v.x + entry m 0 1 * v.y + entry m 0 2 * v.z + entry m 0 3 * v.w
    y := entry m 1 0 * v.x + entry m 1 1 * v.y + entry m 1 2 * v.z + entry m 1 3 * v.w
    z := entry m 2 0 * v.x + entry m 2 1 * v.y + entry m 2 2 * v.z + entry m 2 3 * v.w
    w := entry m 3 0 * v.x + entry m 3 1 * v.y + entry m 3 2 * v.z + entry m 3 3 * v.w }

/-- The current matrix after `gluLookAt (eye, center, up)`, for a viewing
direction `center - eye` of unit length and an `up` vector of unit length
orthogonal to it (the normalisations of GLU are then the identity and are
left out): the rows of the rotation are `s = f × up`, `u = s × f`, `-f`,
followed by the translation by `-eye`. -/
def gluLookAt (cur : Nat → ℚ) (eyeX eyeY eyeZ centerX centerY centerZ upX upY upZ : ℚ) :
    Nat → ℚ :=
  let fX := centerX - eyeX
  let fY := centerY - eyeY
  let fZ := centerZ - eyeZ
  let sX := fY * upZ - fZ * upY
  let sY := fZ * upX - fX * upZ
  let sZ := fX * upY - fY * upX
  let uX := sY * fZ - sZ * fY
  let uY := sZ * fX - sX * fZ
  let uZ := sX * fY - sY * fX
  let rot : Nat → ℚ := fun i =>
    match i with
    | 0 => sX | 4 => sY | 8 => sZ
    | 1 => uX | 5 => uY | 9 => uZ
    | 2 => -fX | 6 => -fY | 10 => -fZ
    | 15 => 1
    | _ => 0
  let tr : Nat → ℚ := fun i =>
    match i with
    | 0 => 1 | 5 => 1 | 10 => 1 | 15 => 1
    | 12 => -eyeX | 13 => -eyeY | 14 => -eyeZ
    | _ => 0
  glMultMatrixd (glMultMatrixd cur rot) tr

/-! ## Messages, parameters and the object state -/

/-- The part of `sensor_msgs::CameraInfo` the filter reads: the 3x4 row-major
projection matrix `P`. -/
structure CameraInfo where
  P : Nat → ℚ

/-- A `CameraInfo` whose `P` holds the pinhole calibration `fx, fy, cx, cy`
(`P[0] = fx`, `P[2] = cx`, `P[5] = fy`, `P[6] = cy`, `P[10] = 1`). -/
def CameraInfo.ofCalibration (fx fy cx cy : ℚ) : CameraInfo :=
  { P := fun i =>
      match i with
      | 0 => fx | 2 => cx | 5 => fy | 6 => cy | 10 => 1
      | _ => 0 }

/-- An element `v[i]` of the `models` parameter: an XmlRpc struct whose members
`model` and `tf_prefix` are strings, or any other value. -/
inductive ModelElem where
  | typeStruct (model : String) (tfPrefix : String)
  | malformed
  deriving DecidableEq, Repr

/-- The value of the `models` parameter: an XmlRpc array or anything else. -/
inductive ModelsParam where
  | typeArray (elems : List ModelElem)
  | notArray
  deriving DecidableEq, Repr

/-- The parameter server behind `nh_`: `getParam key` is `some content` when
`nh_.getParam (key, content)` returns true for a `std::string`, `searchParam
key` is `some loc` when `nh_.searchParam (key, loc)` returns true, `models` is
what `nh_.getParam ("models", v)` stores in `v`. -/
structure ParamServer where
  getParam : String → Option String
  searchParam : String → Option String
  models : ModelsParam

/-- The arguments of `new URDFRenderer (content, tf_prefix, cam_frame_,
fixed_frame_, tf_)`. -/
structure URDFRenderer where
  model_description : String
  tfPrefix : String
  cam_frame : String
  fixed_frame : String
  deriving DecidableEq, Repr

/-- A `FramebufferObject` after `initialize (width, height)`. -/
structure FramebufferObject where
  width : Int
  height : Int
  deriving DecidableEq, Repr

/-- An incoming `sensor_msgs::Image`. -/
structure Image where
  frame_id : String
  stamp : Nat
  height : Nat
  width : Nat
  encoding : String
  step : Nat
  data : List Nat

/-- A `cv::Mat1f`: `rows` x `cols` floats of 4 bytes, `step` bytes from one row
to the next, `data` the bytes from the data pointer on. -/
structure Mat1f where
  rows : Nat
  cols : Nat
  step : Nat
  data : List Nat

/-- An image handed to a publisher: `topic` is `output` for `depth_pub_` and
`output_mask` for `mask_pub_`; `pixels` holds the `32FC1` data, `bytes` the
`mono8` data. -/
structure OutImage where
  topic : String
  frame_id : String
  stamp : Nat
  encoding : String
  height : Int
  width : Int
  pixels : List ℚ
  bytes : List Nat

/-- What one frame obtains from outside the object. -/
structure FrameEnv where
  /-- the value of `depth_pub_.getNumSubscribers ()` -/
  depthSubscribers : Nat
  /-- the value of `mask_pub_.getNumSubscribers ()` -/
  maskSubscribers : Nat
  /-- the transform `tf_.lookupTransform` returns, `none` when it throws -/
  lookupTransform : Option (Nat → ℚ)
  /-- the value of `glGetError ()` after `fbo_->initialize` -/
  glError : Nat
  /-- the value of `glCheckFramebufferStatus (GL_FRAMEBUFFER)` -/
  framebufferStatus : Nat
  /-- texel `i` of an `R32F` buffer texture holding the given bytes -/
  texelFetch : List Nat → Nat → ℚ
  /-- the rendered depth at pixel `i`: robot geometry, or the background quad -/
  robotDepth : Nat → ℚ
  /-- the stencil value at pixel `i` after the geometry pass -/
  stencil : Nat → Nat

/-- The constant `GL_NO_ERROR`. -/
def GL_NO_ERROR : Nat := 0

/-- The constant `GL_FRAMEBUFFER_COMPLETE`. -/
def GL_FRAMEBUFFER_COMPLETE : Nat := 0x8CD5

/-- The members of `RealtimeURDFFilter`, the function-local statics of its
member functions (`gl_initialized`), the GL projection matrix, and the lines
written to the log. -/
structure RealtimeURDFFilter where
  nh_ : ParamServer
  fixed_frame_ : String
  cam_frame_ : String
  depth_distance_threshold_ : ℚ
  show_gui_ : Bool
  filter_replace_value_ : ℚ
  far_plane_ : ℚ
  near_plane_ : ℚ
  fbo_initialized_ : Bool
  fbo_ : Option FramebufferObject
  width_ : Int
  height_ : Int
  need_mask_ : Bool
  renderers_ : List URDFRenderer
  masked_depth_ : List ℚ
  mask_ : List Nat
  depth_texture_ : List Nat
  gl_initialized : Bool
  gl_projection : Nat → ℚ
  log : List String

/-- The constructor, for parameters of the right types (each `ROS_ASSERT` of
the constructor holds). The initialiser list sets `fbo_initialized_`,
`far_plane_` and `near_plane_`; `width_` and `height_` are not assigned and
hold whatever `width0`, `height0` the memory held; no frame buffer object and
no read-back buffer exists yet. -/
def construct (nh : ParamServer) (fixed_frame camera_frame : String)
    (depth_distance_threshold : ℚ) (show_gui : Bool) (filter_replace_value : ℚ)
    (width0 height0 : Int) : RealtimeURDFFilter :=
  { nh_ := nh
    fixed_frame_ := fixed_frame
    cam_frame_ := camera_frame
    depth_distance_threshold_ := depth_distance_threshold
    show_gui_ := show_gui
    filter_replace_value_ := filter_replace_value
    far_plane_ := 8
    near_plane_ := 1 / 10
    fbo_initialized_ := false
    fbo_ := none
    width_ := width0
    height_ := height0
    need_mask_ := false
    renderers_ := []
    masked_depth_ := []
    mask_ := []
    depth_texture_ := []
    gl_initialized := false
    gl_projection := identity16
    log := [] }

/-! ## loadModels -/

/-- The body of the loop of `loadModels` over the elements of the array:
`none` when `ROS_ASSERT (elem.getType () == TypeStruct)` fails or a member
is not a string, otherwise the renderer list after the loop. An element is
skipped (`continue`) when neither `getParam` nor `searchParam` finds its
description, and when the description is empty. -/
def loadModelsLoop (nh : ParamServer) (cam_frame fixed_frame : String) :
    List ModelElem → List URDFRenderer → Option (List URDFRenderer)
  | [], renderers => some renderers
  | ModelElem.malformed :: _, _ => none
  | ModelElem.typeStruct description_param tfp :: rest, renderers =>
    let content : String := ""
    let found : Option String :=
      match nh.getParam description_param with
      | some c => some c
      | none =>
        match nh.searchParam description_param with
        | some loc => some ((nh.getParam loc).getD content)
        | none => none
    match found with
    | none => loadModelsLoop nh cam_frame fixed_frame rest renderers
    | some content =>
      if content = "" then loadModelsLoop nh cam_frame fixed_frame rest renderers
      else
        loadModelsLoop nh cam_frame fixed_frame rest
          (renderers ++ [{ model_description := content, tfPrefix := tfp,
                           cam_frame := cam_frame, fixed_frame := fixed_frame }])

/-- The function `RealtimeURDFFilter::loadModels`: `none` when the process
stops at a malformed element. -/
def loadModels (s : RealtimeURDFFilter) : Option RealtimeURDFFilter :=
  match s.nh_.models with
  | ModelsParam.typeArray elems =>
    match loadModelsLoop s.nh_ s.cam_frame_ s.fixed_frame_ elems s.renderers_ with
    | some rs => some { s with renderers_ := rs }
    | none => none
  | ModelsParam.notArray =>
    some { s with log := s.log ++ ["models parameter must be an array!"] }

/-! ## Frame buffer object and GL initialisation -/

/-- The function `RealtimeURDFFilter::initFrameBufferObject`. -/
def initFrameBufferObject (s : RealtimeURDFFilter) (env : FrameEnv) : RealtimeURDFFilter :=
  let s := { s with fbo_ := some { width := s.width_, height := s.height_ } }
  let s := { s with fbo_initialized_ := true }
  let err := env.glError
  let s := if err ≠ GL_NO_ERROR then
      { s with log := s.log ++ ["OpenGL ERROR after FBO initialization"] }
    else s
  let status := env.framebufferStatus
  if status ≠ GL_FRAMEBUFFER_COMPLETE then
    { s with log := s.log ++ ["OpenGL FrameBuffer ERROR after FBO initialization"] }
  else s

/-- The block of `initGL` guarded by the static flag `gl_initialized`: the
GLUT window is created once per process. -/
def glutSetup (s : RealtimeURDFFilter) : RealtimeURDFFilter :=
  if !s.gl_initialized then { s with gl_initialized := true } else s

/-- The two `malloc` calls at the end of `initGL`: new read-back buffers of
`width_ * height_` entries (of value 0). -/
def allocReadback (s : RealtimeURDFFilter) : RealtimeURDFFilter :=
  { s with
    masked_depth_ := List.replicate (s.width_ * s.height_).toNat 0
    mask_ := List.replicate (s.width_ * s.height_).toNat 0 }

/-- The function `RealtimeURDFFilter::initGL`: the GLUT block, then
`initFrameBufferObject`, `loadModels` and the allocation of the read-back
buffers; `none` when `loadModels` stops the process. -/
def initGL (s : RealtimeURDFFilter) (env : FrameEnv) : Option RealtimeURDFFilter :=
  let s := glutSetup s
  let s := initFrameBufferObject s env
  match loadModels s with
  | none => none
  | some s => some (allocReadback s)

/-! ## The projection matrix -/

/-- The loop `for (i = 0; i < 16; ++i) glTf[i] = 0.0`. -/
def zeroFill (glTf : Nat → ℚ) : Nat → ℚ :=
  (List.range 16).foldl (fun acc i => setIdx acc i 0) glTf

/-- The function `RealtimeURDFFilter::getProjectionMatrix` (the branch compiled
without `USE_OWN_CALIBRATION`): a null `CameraInfo` leaves `glTf` as it is. -/
def getProjectionMatrix (s : RealtimeURDFFilter) (current_caminfo : Option CameraInfo)
    (glTf : Nat → ℚ) : Nat → ℚ :=
  match current_caminfo with
  | none => glTf
  | some info =>
    let fx := info.P 0 * (1 / 2)
    let fy := info.P 5 * (1 / 2)
    let cx := info.P 2 * (1 / 2)
    let cy := info.P 6 * (1 / 2) - 48
    let glTf := zeroFill glTf
    let glTf := setIdx glTf 0 (-2 * fx / (s.width_ : ℚ))
    let glTf := setIdx glTf 5 (2 * fy / (s.height_ : ℚ))
    let glTf := setIdx glTf 8 (2 * (1 / 2 - cx / (s.width_ : ℚ)))
    let glTf := setIdx glTf 9 (2 * (cy / (s.height_ : ℚ) - 1 / 2))
    let glTf := setIdx glTf 10 (-(s.far_plane_ + s.near_plane_) / (s.far_plane_ - s.near_plane_))
    let glTf := setIdx glTf 14 (-2 * s.far_plane_ * s.near_plane_ / (s.far_plane_ - s.near_plane_))
    setIdx glTf 11 (-1)

/-- The projection matrix `render` sets up: `glLoadIdentity` followed by
`glMultMatrixd (camera_projection_matrix)`. -/
def renderProjection (camera_projection_matrix : Nat → ℚ) : Nat → ℚ :=
  glMultMatrixd identity16 camera_projection_matrix

/-- The model-view matrix `render` sets up before it draws: `glLoadIdentity`
followed by `gluLookAt (0,0,0, 0,0,1, 0,1,0)`. -/
def renderModelView : Nat → ℚ :=
  gluLookAt identity16 0 0 0 0 0 1 0 1 0

/-- Clip coordinates of the camera-space point `(x, y, z)` under the matrices
of `render`. -/
def clipCoords (camera_projection_matrix : Nat → ℚ) (x y z : ℚ) : Vec4 :=
  mulVec (renderProjection camera_projection_matrix)
    (mulVec renderModelView { x := x, y := y, z := z, w := 1 })

/-- Normalized device coordinate x: clip x over clip w. -/
def ndcX (camera_projection_matrix : Nat → ℚ) (x y z : ℚ) : ℚ :=
  (clipCoords camera_projection_matrix x y z).x / (clipCoords camera_projection_matrix x y z).w

/-- Normalized device coordinate y: clip y over clip w. -/
def ndcY (camera_projection_matrix : Nat → ℚ) (x y z : ℚ) : ℚ :=
  (clipCoords camera_projection_matrix x y z).y / (clipCoords camera_projection_matrix x y z).w

/-! ## Host buffers -/

/-- Byte `k` from the data pointer of a matrix (0 past the end of `data`). -/
def Mat1f.byteAt (m : Mat1f) (k : Nat) : Nat := m.data.getD k 0

/-- The value of `depth_image.elemSize ()` for `cv::Mat1f`. -/
def elemSize : Nat := 4

/-- The value of `depth_image.isContinuous ()`: no gap at the end of a row. -/
def Mat1f.isContinuous (m : Mat1f) : Bool := m.step == m.cols * elemSize

/-- The call `memcpy (dst + dstOff, src + srcOff, n)` on byte memories. -/
def memcpy (dst : Nat → Nat) (dstOff : Nat) (src : Nat → Nat) (srcOff n : Nat) : Nat → Nat :=
  fun k => if dstOff ≤ k ∧ k < dstOff + n then src (srcOff + (k - dstOff)) else dst k

/-- The function `RealtimeURDFFilter::bufferFromDepthImage`: the bytes the
returned pointer points to. `buffer0` is the content of the static buffer
before the call (of a fresh `malloc` when the pointer was null). The source
of the copy of row `i` is `&depth_image.data[i]`, the address `i` bytes after
the data pointer. -/
def bufferFromDepthImage (buffer0 : Nat → Nat) (depth_image : Mat1f) : List Nat :=
  let row_size := depth_image.cols * elemSize
  if depth_image.isContinuous then
    depth_image.data
  else
    let buffer := (List.range depth_image.rows).foldl
      (fun buffer i => memcpy buffer (i * row_size) depth_image.byteAt i row_size) buffer0
    (List.range (row_size * depth_image.rows)).map buffer

/-- The function `RealtimeURDFFilter::textureBufferFromDepthBuffer`:
`glBufferData` uploads `size_in_bytes` bytes of `buffer`, which become the
content of the buffer texture `depth_texture_`. -/
def textureBufferFromDepthBuffer (s : RealtimeURDFFilter) (buffer : List Nat)
    (size_in_bytes : Int) : RealtimeURDFFilter :=
  { s with depth_texture_ := buffer.take size_in_bytes.toNat }

/-! ## Rendering -/

/-- Modelled from the spec: the fragment program `urdf_filter.frag`, which
`render` loads and whose source is not part of `src/`. Spec section 4.5: if
`sensedDepth - robotDepth <= max_diff` output `replace_value`, otherwise the
original `sensedDepth`; invalid/zero sensed depth passes through unchanged
(never classified as robot). -/
def fragmentShader (sensedDepth robotDepth max_diff replace_value : ℚ) : ℚ :=
  if sensedDepth = 0 then sensedDepth
  else if sensedDepth - robotDepth ≤ max_diff then replace_value
  else sensedDepth

/-- The number of pixels of the render target, `width_ * height_`. -/
def pixelCount (s : RealtimeURDFFilter) : Nat := (s.width_ * s.height_).toNat

/-- Modelled from the spec: the content of colour attachment 1 after the
geometry pass, which the GPU and the fragment program `urdf_filter.frag`
(not part of `src/`) produce. Spec sections 4.5 and 4.7: at every pixel the
output of the fragment program for the texel of the uploaded depth buffer
and the rendered depth there; the uniforms `max_diff` and `replace_value` are
the ones `render` sets, `depth_distance_threshold_` and
`filter_replace_value_`. -/
def filteredDepthAttachment (s : RealtimeURDFFilter) (env : FrameEnv) : List ℚ :=
  (List.range (pixelCount s)).map fun i =>
    fragmentShader (env.texelFetch s.depth_texture_ i) (env.robotDepth i)
      s.depth_distance_threshold_ s.filter_replace_value_

/-- The red channel of colour attachment 3 after the two stencil-gated quads,
read as unsigned bytes: the red quad where the stencil bit is set, the blue
quad where it is clear. -/
def maskAttachment (s : RealtimeURDFFilter) (env : FrameEnv) : List Nat :=
  (List.range (pixelCount s)).map fun i => if env.stencil i % 2 = 1 then 255 else 0

/-- The function `RealtimeURDFFilter::render`. It returns at once when the
frame buffer object is not initialised and when `lookupTransform` throws;
otherwise it loads the projection matrix, draws, and reads colour attachment
1 into `masked_depth_` and, if `need_mask_`, attachment 3 into `mask_`. -/
def render (s : RealtimeURDFFilter) (camera_projection_matrix : Nat → ℚ) (env : FrameEnv) :
    RealtimeURDFFilter :=
  if !s.fbo_initialized_ then s
  else
    match env.lookupTransform with
    | none => { s with log := s.log ++ ["lookupTransform failed"] }
    | some _ =>
      let s := { s with gl_projection := renderProjection camera_projection_matrix }
      let s := { s with masked_depth_ := filteredDepthAttachment s env }
      if s.need_mask_ then { s with mask_ := maskAttachment s env } else s

/-! ## Per-frame processing -/

/-- The first block of `filter`: when the size of the frame differs from the
stored one, the new size is stored and `initGL` runs. -/
def resizeIfChanged (s : RealtimeURDFFilter) (width height : Int) (env : FrameEnv) :
    Option RealtimeURDFFilter :=
  if s.width_ ≠ width ∨ s.height_ ≠ height then
    initGL { s with width_ := width, height_ := height,
                    log := s.log ++ ["image size has changed"] } env
  else some s

/-- The two publishing blocks at the end of `filter`: the depth image when
`depth_pub_` has a subscriber, then the mask when `mask_pub_` has one. -/
def publishOutputs (s : RealtimeURDFFilter) (timestamp : Nat) (env : FrameEnv) :
    List OutImage :=
  let depthOut : List OutImage :=
    if env.depthSubscribers > 0 then
      [{ topic := "output", frame_id := s.cam_frame_, stamp := timestamp,
         encoding := "32FC1", height := s.height_, width := s.width_,
         pixels := s.masked_depth_, bytes := [] }]
    else []
  let maskOut : List OutImage :=
    if env.maskSubscribers > 0 then
      [{ topic := "output_mask", frame_id := s.cam_frame_, stamp := timestamp,
         encoding := "mono8", height := s.height_, width := s.width_,
         pixels := [], bytes := s.mask_ }]
    else []
  depthOut ++ maskOut

/-- The part of `filter` after the size check (the frame-rate printout is
left out): `need_mask_` is set, the depth buffer is uploaded, `render` runs. -/
def processFrame (s : RealtimeURDFFilter) (buffer : List Nat) (glTf : Nat → ℚ)
    (env : FrameEnv) : RealtimeURDFFilter :=
  let s := { s with need_mask_ := decide (env.maskSubscribers > 0) }
  let size_in_bytes : Int := s.width_ * s.height_ * 4
  let s := textureBufferFromDepthBuffer s buffer size_in_bytes
  render s glTf env

/-- The function `RealtimeURDFFilter::filter`: the state after the call and
the images published, or `none` when `loadModels` stops the process. -/
def filter (s : RealtimeURDFFilter) (buffer : List Nat) (glTf : Nat → ℚ) (width height : Int)
    (timestamp : Nat) (env : FrameEnv) : Option (RealtimeURDFFilter × List OutImage) :=
  match resizeIfChanged s width height env with
  | none => none
  | some s =>
    let s := processFrame s buffer glTf env
    some (s, publishOutputs s timestamp env)

/-- The call `cv_bridge::toCvShare (ros_depth_image, TYPE_32FC1)`: a matrix
of the size of the message sharing its data when the message is `32FC1`;
any other encoding is the exception case. -/
def toCvShare (ros_depth_image : Image) : Option Mat1f :=
  if ros_depth_image.encoding = "32FC1" then
    some { rows := ros_depth_image.height, cols := ros_depth_image.width,
           step := ros_depth_image.step, data := ros_depth_image.data }
  else none

/-- The function `RealtimeURDFFilter::filter_callback`. `glTf0` is the content
of the local array `double glTf[16]` before `getProjectionMatrix` writes it. -/
def filter_callback (s : RealtimeURDFFilter) (ros_depth_image : Image)
    (camera_info : Option CameraInfo) (glTf0 : Nat → ℚ) (env : FrameEnv) :
    Option (RealtimeURDFFilter × List OutImage) :=
  match toCvShare ros_depth_image with
  | none => some ({ s with log := s.log ++ ["cv_bridge Exception"] }, [])
  | some depth_image =>
    let buffer := bufferFromDepthImage (fun _ => 0) depth_image
    let glTf := getProjectionMatrix s camera_info glTf0
    filter s buffer glTf (depth_image.cols : Int) (depth_image.rows : Int)
      ros_depth_image.stamp env

/-- One call of `filter` per frame `(width, height)` of the list, in order,
each with its own environment; the buffer and the matrix are the same for
every frame. `none` when `loadModels` stops the process. -/
def filterFrames (buffer : List Nat) (glTf : Nat → ℚ) :
    RealtimeURDFFilter → List ((Int × Int) × FrameEnv) → Option RealtimeURDFFilter
  | s, [] => some s
  | s, (dims, env) :: rest =>
    match filter s buffer glTf dims.1 dims.2 0 env with
    | none => none
    | some (s, _) => filterFrames buffer glTf s rest

/-! ## Example values -/

/-- A parameter server with one model whose description is found directly. -/
def exampleServer : ParamServer :=
  { getParam := fun key => if key = "robot_description" then some "<robot/>" else none
    searchParam := fun _ => none
    models := ModelsParam.typeArray [ModelElem.typeStruct "robot_description" ""] }

/-- A frame environment: one consumer of the depth output, a successful pose
lookup, no GL error, a rendered depth of 2 at every pixel. -/
def exampleEnv : FrameEnv :=
  { depthSubscribers := 1
    maskSubscribers := 0
    lookupTransform := some identity16
    glError := GL_NO_ERROR
    framebufferStatus := GL_FRAMEBUFFER_COMPLETE
    texelFetch := fun bytes i => (bytes.getD i 0 : ℚ)
    robotDepth := fun _ => 2
    stencil := fun _ => 0 }

/-- The environment `exampleEnv` with a failing pose lookup. -/
def lookupFailsEnv : FrameEnv := { exampleEnv with lookupTransform := none }

/-- A filter for camera frame `camera` whose render target has been set up for
`width` x `height` frames, with one renderer loaded. -/
def readyFilter (width height : Int) : RealtimeURDFFilter :=
  { construct exampleServer "base_link" "camera" (1 / 20) false 0 width height with
    fbo_initialized_ := true
    fbo_ := some { width := width, height := height }
    renderers_ := [{ model_description := "<robot/>", tfPrefix := "",
                     cam_frame := "camera", fixed_frame := "base_link" }]
    masked_depth_ := List.replicate (width * height).toNat 7
    mask_ := List.replicate (width * height).toNat 0
    gl_initialized := true }

/-- The pinhole pixel coordinate of a camera-space point along one image
axis: focal length times the coordinate over the depth, plus the principal
point. -/
def pinholePixel (f c coord z : ℚ) : ℚ := f * coord / z + c

/-- Byte `j` of row `i` of a matrix: rows are `step` bytes apart. -/
def Mat1f.rowByte (m : Mat1f) (i j : Nat) : Nat := m.byteAt (i * m.step + j)

/-- A 2 x 1 depth image whose rows are 8 bytes apart: row 0 holds the bytes
1 2 3 4, row 1 the bytes 5 6 7 8, and each row is followed by 4 bytes of
padding of value 9. -/
def paddedImage : Mat1f :=
  { rows := 2, cols := 1, step := 8,
    data := [1, 2, 3, 4, 9, 9, 9, 9, 5, 6, 7, 8, 9, 9, 9, 9] }

/-- The description an element's parameter name resolves to: the string
`getParam` finds directly, or, failing that, the string at the location
`searchParam` finds; `none` when neither resolves. -/
def resolveDescription (nh : ParamServer) (description_param : String) : Option String :=
  match nh.getParam description_param with
  | some content => some content
  | none => (nh.searchParam description_param).bind nh.getParam

/-- The renderer that belongs to an element of the `models` array: one
renderer when the description resolves to a non-empty string, none otherwise. -/
def rendererOf (nh : ParamServer) (cam_frame fixed_frame : String) :
    ModelElem → Option URDFRenderer
  | ModelElem.typeStruct description_param tfp =>
    match resolveDescription nh description_param with
    | some content =>
      if content = "" then none
      else some { model_description := content, tfPrefix := tfp,
                  cam_frame := cam_frame, fixed_frame := fixed_frame }
    | none => none
  | ModelElem.malformed => none

/-- A parameter server with four models: `a` is found directly, `b` is not
found at all, `c` is found but empty, `d` is found through `searchParam`. -/
def mixedServer : ParamServer :=
  { getParam := fun key =>
      if key = "a" then some "<robot a/>"
      else if key = "c" then some ""
      else if key = "/ns/d" then some "<robot d/>"
      else none
    searchParam := fun key => if key = "d" then some "/ns/d" else none
    models := ModelsParam.typeArray
      [ModelElem.typeStruct "a" "pa", ModelElem.typeStruct "b" "pb",
       ModelElem.typeStruct "c" "pc", ModelElem.typeStruct "d" "pd"] }

/-- A freshly constructed filter on `mixedServer`. -/
def mixedFilter : RealtimeURDFFilter :=
  construct mixedServer "base_link" "camera" (1 / 20) false 0 0 0

/-- A ready 1 x 1 filter with replacement value 5 and tolerance 1/20 whose
uploaded depth buffer holds the single sensed depth 0 (invalid). -/
def zeroDepthFilter : RealtimeURDFFilter :=
  { readyFilter 1 1 with filter_replace_value_ := 5, depth_texture_ := [0, 0, 0, 0] }

/-- The pipeline state a frame can leave behind: the initialised flag, the
render target, the stored width and height, and the loaded renderers. -/
def pipelineState (s : RealtimeURDFFilter) :
    Bool × Option FramebufferObject × Int × Int × List URDFRenderer :=
  (s.fbo_initialized_, s.fbo_, s.width_, s.height_, s.renderers_)

/-- An environment in which the device rejects the render target:
`glGetError` reports `GL_INVALID_OPERATION` and the frame buffer status is
`GL_FRAMEBUFFER_UNSUPPORTED`. -/
def rejectingEnv : FrameEnv :=
  { exampleEnv with glError := 0x0502, framebufferStatus := 0x8CDD }

/-- A contiguous 2 x 1 depth message `32FC1` with time stamp 42 whose header
carries the frame id `other_frame`. -/
def otherFrameImage : Image :=
  { frame_id := "other_frame", stamp := 42, height := 1, width := 2,
    encoding := "32FC1", step := 8, data := [3, 0, 0, 0, 4, 0, 0, 0] }

/-- A freshly constructed filter on `exampleServer` whose unassigned members
`width_`, `height_` hold `width0`, `height0`. -/
def freshFilter (width0 height0 : Int) : RealtimeURDFFilter :=
  construct exampleServer "base_link" "camera" (1 / 20) false 0 width0 height0

/-- The projection matrix synthesized with the width and height of a depth
frame as `W` and `H`: `getProjectionMatrix` on the state in which the stored
size is that of the frame. -/
def matrixForFrame (s : RealtimeURDFFilter) (ros_depth_image : Image)
    (camera_info : Option CameraInfo) (glTf0 : Nat → ℚ) : Nat → ℚ :=
  getProjectionMatrix
    { s with width_ := (ros_depth_image.width : Int), height_ := (ros_depth_image.height : Int) }
    camera_info glTf0

/-- A contiguous 320 x 240 depth message `32FC1` with time stamp 43. -/
def halfSizeImage : Image :=
  { frame_id := "camera", stamp := 43, height := 240, width := 320,
    encoding := "32FC1", step := 1280, data := [] }

/-! ## Theorems: the projection matrix -/

theorem zeroFill_lt (glTf : Nat → ℚ) (i : Nat) (h : i < 16) : zeroFill glTf i = 0 := by
  simp only [zeroFill, List.range_succ, List.range_zero, List.nil_append, List.cons_append,
    List.foldl_cons, List.foldl_nil, setIdx]
  interval_cases i <;> simp

/-- The view transform of `render` maps `(x, y, z, 1)` to `(-x, y, -z, 1)`. -/
theorem renderModelView_apply (x y z : ℚ) :
    mulVec renderModelView { x := x, y := y, z := z, w := 1 }
      = { x := -x, y := y, z := -z, w := 1 } := by
  simp [mulVec, renderModelView, gluLookAt, glMultMatrixd, entry, identity16]

/-- Clip coordinates x, y, w of a camera-space point under the matrix of
`getProjectionMatrix`, in terms of the values `fx, fy, cx, cy` the function
derives from the `CameraInfo`. -/
theorem clipCoords_getProjectionMatrix (s : RealtimeURDFFilter) (info : CameraInfo)
    (glTf0 : Nat → ℚ) (x y z : ℚ) :
    (clipCoords (getProjectionMatrix s (some info) glTf0) x y z).x
        = 2 * (info.P 0 * (1 / 2)) / (s.width_ : ℚ) * x
          - 2 * (1 / 2 - info.P 2 * (1 / 2) / (s.width_ : ℚ)) * z ∧
    (clipCoords (getProjectionMatrix s (some info) glTf0) x y z).y
        = 2 * (info.P 5 * (1 / 2)) / (s.height_ : ℚ) * y
          - 2 * ((info.P 6 * (1 / 2) - 48) / (s.height_ : ℚ) - 1 / 2) * z ∧
    (clipCoords (getProjectionMatrix s (some info) glTf0) x y z).w = z := by
  simp only [clipCoords, renderModelView_apply]
  simp [mulVec, renderProjection, glMultMatrixd, entry, identity16, getProjectionMatrix,
    setIdx, zeroFill_lt]
  constructor <;> ring

/-- The y coordinate in normalized device coordinates under the matrix of
`getProjectionMatrix`: the pinhole row computed with the principal point
`height_ - cy` in place of `cy`. -/
theorem ndcY_getProjectionMatrix (s : RealtimeURDFFilter) (info : CameraInfo)
    (glTf0 : Nat → ℚ) (x y z : ℚ) (hz : z ≠ 0) (hH : (s.height_ : ℚ) ≠ 0) :
    ndcY (getProjectionMatrix s (some info) glTf0) x y z
      = 2 * pinholePixel (info.P 5 * (1 / 2))
              ((s.height_ : ℚ) - (info.P 6 * (1 / 2) - 48)) y z / (s.height_ : ℚ) - 1 := by
  obtain ⟨_, hy, hw⟩ := clipCoords_getProjectionMatrix s info glTf0 x y z
  rw [ndcY, hy, hw, pinholePixel]
  field_simp
  ring

/-- C1 (as amended): for every `CameraInfo` from which `getProjectionMatrix`
derives `fx = P[0]/2 = 525`, `fy = P[5]/2 = 525`, `cx = P[2]/2 = 320` and
`cy = P[6]/2 - 48 = 240`, with `width_ = 640` and `height_ = 480`, the matrix
applied after the view transform of `render` maps the point `(0, 0, d)` to
normalized device coordinates `x = 0`, `y = 0` for every `0.1 < d < 8`. -/
theorem C1_principal_axis_maps_to_centre (s : RealtimeURDFFilter) (info : CameraInfo)
    (glTf0 : Nat → ℚ) (d : ℚ)
    (hW : s.width_ = 640) (hH : s.height_ = 480)
    (hfx : info.P 0 * (1 / 2) = 525) (hfy : info.P 5 * (1 / 2) = 525)
    (hcx : info.P 2 * (1 / 2) = 320) (hcy : info.P 6 * (1 / 2) - 48 = 240)
    (hn : 1 / 10 < d) (_hf : d < 8) :
    ndcX (getProjectionMatrix s (some info) glTf0) 0 0 d = 0 ∧
    ndcY (getProjectionMatrix s (some info) glTf0) 0 0 d = 0 := by
  obtain ⟨hx, hy, hw⟩ := clipCoords_getProjectionMatrix s info glTf0 0 0 d
  have hd : d ≠ 0 := by linarith
  rw [ndcX, ndcY, hx, hy, hw, hfx, hfy, hcx, hcy, hW, hH]
  constructor <;> norm_num

/-- C1, at a concrete input: `P[0] = P[5] = 1050`, `P[2] = 640`,
`P[6] = 576`, a 640 x 480 filter and depth 1. -/
theorem C1_principal_axis_maps_to_centre_witness :
    (readyFilter 640 480).width_ = 640 ∧ (1 / 10 : ℚ) < 1 ∧ (1 : ℚ) < 8 ∧
    ndcX (getProjectionMatrix (readyFilter 640 480)
      (some (CameraInfo.ofCalibration 1050 1050 640 576)) identity16) 0 0 1 = 0 ∧
    ndcY (getProjectionMatrix (readyFilter 640 480)
      (some (CameraInfo.ofCalibration 1050 1050 640 576)) identity16) 0 0 1 = 0 :=
  ⟨rfl, by norm_num, by norm_num,
    C1_principal_axis_maps_to_centre (readyFilter 640 480)
      (CameraInfo.ofCalibration 1050 1050 640 576) identity16 1 rfl rfl
      (by norm_num [CameraInfo.ofCalibration]) (by norm_num [CameraInfo.ofCalibration])
      (by norm_num [CameraInfo.ofCalibration]) (by norm_num [CameraInfo.ofCalibration])
      (by norm_num) (by norm_num)⟩

/-- C1 (counterexample): for the `CameraInfo` with `fx = 525`, `fy = 525`,
`cx = 320`, `cy = 240` and a 640 x 480 image, the point `(0, 0, 1)` on the
principal axis is mapped to `x = -1/2`, `y = 7/10`, not to the centre. -/
theorem C1_calibration_counterexample :
    ((1 / 10 : ℚ) < 1 ∧ (1 : ℚ) < 8) ∧
    ndcX (getProjectionMatrix (readyFilter 640 480)
      (some (CameraInfo.ofCalibration 525 525 320 240)) identity16) 0 0 1 = -1 / 2 ∧
    ndcY (getProjectionMatrix (readyFilter 640 480)
      (some (CameraInfo.ofCalibration 525 525 320 240)) identity16) 0 0 1 = 7 / 10 ∧
    ¬ (ndcX (getProjectionMatrix (readyFilter 640 480)
        (some (CameraInfo.ofCalibration 525 525 320 240)) identity16) 0 0 1 = 0 ∧
       ndcY (getProjectionMatrix (readyFilter 640 480)
        (some (CameraInfo.ofCalibration 525 525 320 240)) identity16) 0 0 1 = 0) := by
  obtain ⟨hx, hy, hw⟩ := clipCoords_getProjectionMatrix (readyFilter 640 480)
    (CameraInfo.ofCalibration 525 525 320 240) identity16 0 0 1
  have hW : (readyFilter 640 480).width_ = 640 := rfl
  have hH : (readyFilter 640 480).height_ = 480 := rfl
  rw [ndcX, ndcY, hx, hy, hw, hW, hH]
  norm_num [CameraInfo.ofCalibration]

/-- C10 (the code at the failing input): with `fy = 525`, `cy = 200` in the
synthesizer (`P[5] = 1050`, `P[6] = 496`) and `height_ = 480`, the point
`(0, 0, 1)` gets y = 1/6 in normalized device coordinates, whereas its pinhole
row `v = fy * y / z + cy = 200` corresponds to `2 * v / H - 1 = -1/6`. -/
theorem C10_vertical_offset_at_failing_input :
    ndcY (getProjectionMatrix (readyFilter 640 480)
      (some (CameraInfo.ofCalibration 1050 1050 640 496)) identity16) 0 0 1 = 1 / 6 ∧
    2 * pinholePixel 525 200 0 1 / 480 - 1 = (-1 / 6 : ℚ) ∧
    ndcY (getProjectionMatrix (readyFilter 640 480)
      (some (CameraInfo.ofCalibration 1050 1050 640 496)) identity16) 0 0 1
      ≠ 2 * pinholePixel 525 200 0 1 / 480 - 1 := by
  obtain ⟨_, hy, hw⟩ := clipCoords_getProjectionMatrix (readyFilter 640 480)
    (CameraInfo.ofCalibration 1050 1050 640 496) identity16 0 0 1
  have hH : (readyFilter 640 480).height_ = 480 := rfl
  rw [ndcY, hy, hw, hH]
  norm_num [CameraInfo.ofCalibration, pinholePixel]

/-! ## Theorems: host buffers -/

theorem foldl_memcpy_rows (src : Nat → Nat) (rs : Nat) (buffer0 : Nat → Nat) :
    ∀ (n k : Nat),
      ((List.range n).foldl (fun buffer i => memcpy buffer (i * rs) src i rs) buffer0) k
        = if k < n * rs then src (k / rs + k % rs) else buffer0 k := by
  intro n
  induction n with
  | zero => intro k; simp
  | succ n ih =>
    intro k
    rw [List.range_succ, List.foldl_append]
    simp only [List.foldl_cons, List.foldl_nil, memcpy]
    by_cases h1 : n * rs ≤ k ∧ k < n * rs + rs
    · rw [if_pos h1]
      have hlt : k < (n + 1) * rs := by rw [Nat.succ_mul]; exact h1.2
      rw [if_pos hlt]
      have hrs : 0 < rs := by omega
      have hdiv : k / rs = n := by
        apply Nat.div_eq_of_lt_le
        · exact h1.1
        · rw [Nat.succ_mul]; exact h1.2
      have hmod : k % rs = k - n * rs := by
        have := Nat.div_add_mod k rs
        rw [hdiv] at this
        rw [Nat.mul_comm] at this
        omega
      rw [hdiv, hmod]
    · rw [if_neg h1, ih k]
      by_cases h2 : k < n * rs
      · have hlt : k < (n + 1) * rs := by rw [Nat.succ_mul]; omega
        rw [if_pos h2, if_pos hlt]
      · have hge : ¬ k < (n + 1) * rs := by
          rw [Nat.succ_mul]
          intro hk
          exact h1 ⟨by omega, hk⟩
        rw [if_neg h2, if_neg hge]

/-- What the non-contiguous branch of `bufferFromDepthImage` returns: byte
`i * row_size + j` of the buffer is the byte `i + j` places after the data
pointer of the image. -/
theorem bufferFromDepthImage_noncontinuous (buffer0 : Nat → Nat) (depth_image : Mat1f)
    (hnc : depth_image.isContinuous = false) (i j : Nat) (hi : i < depth_image.rows)
    (hj : j < depth_image.cols * elemSize) :
    (bufferFromDepthImage buffer0 depth_image).length
        = depth_image.rows * (depth_image.cols * elemSize) ∧
    (bufferFromDepthImage buffer0 depth_image)[i * (depth_image.cols * elemSize) + j]?
        = some (depth_image.byteAt (i + j)) := by
  have hk : i * (depth_image.cols * elemSize) + j
      < depth_image.rows * (depth_image.cols * elemSize) := by
    calc i * (depth_image.cols * elemSize) + j
        < i * (depth_image.cols * elemSize) + depth_image.cols * elemSize := by omega
      _ = (i + 1) * (depth_image.cols * elemSize) := by rw [Nat.succ_mul]
      _ ≤ depth_image.rows * (depth_image.cols * elemSize) := Nat.mul_le_mul_right _ hi
  have hpos : 0 < depth_image.cols * elemSize := by omega
  have hdiv : (i * (depth_image.cols * elemSize) + j) / (depth_image.cols * elemSize) = i := by
    rw [Nat.add_comm, Nat.add_mul_div_right _ _ hpos, Nat.div_eq_of_lt hj, Nat.zero_add]
  have hmod : (i * (depth_image.cols * elemSize) + j) % (depth_image.cols * elemSize) = j := by
    rw [Nat.add_comm, Nat.add_mul_mod_self_right, Nat.mod_eq_of_lt hj]
  have hk2 : i * (depth_image.cols * elemSize) + j
      < depth_image.cols * elemSize * depth_image.rows := by
    rw [Nat.mul_comm (depth_image.cols * elemSize) depth_image.rows]; exact hk
  simp only [bufferFromDepthImage, hnc, Bool.false_eq_true, if_false, List.length_map,
    List.length_range, List.getElem?_map, List.getElem?_range hk2, Option.map_some',
    foldl_memcpy_rows, if_pos hk, hdiv, hmod]
  exact ⟨Nat.mul_comm _ _, trivial⟩

/-- What the contiguous branch of `bufferFromDepthImage` returns: the data of
the image itself, whose byte `i * row_size + j` is byte `j` of row `i`. -/
theorem bufferFromDepthImage_continuous (buffer0 : Nat → Nat) (depth_image : Mat1f)
    (hc : depth_image.isContinuous = true) (i j : Nat) :
    bufferFromDepthImage buffer0 depth_image = depth_image.data ∧
    (bufferFromDepthImage buffer0 depth_image).getD (i * (depth_image.cols * elemSize) + j) 0
        = depth_image.rowByte i j := by
  have hstep : depth_image.step = depth_image.cols * elemSize := by
    simpa [Mat1f.isContinuous] using hc
  simp [bufferFromDepthImage, hc, Mat1f.rowByte, Mat1f.byteAt, hstep]

/-- C8 (the code at the failing input): for the non-contiguous 2 x 1 image
`paddedImage` the returned buffer is `1 2 3 4 2 3 4 9`: its second row is the
four bytes that start one byte after the data pointer, so byte `1 * 4 + 0` of
the buffer is 2 while byte 0 of row 1 of the image is 5. -/
theorem C8_noncontiguous_copy_at_failing_input :
    paddedImage.isContinuous = false ∧
    bufferFromDepthImage (fun _ => 0) paddedImage = [1, 2, 3, 4, 2, 3, 4, 9] ∧
    (bufferFromDepthImage (fun _ => 0) paddedImage).getD (1 * 4 + 0) 0 = 2 ∧
    paddedImage.rowByte 1 0 = 5 := by
  decide

/-! ## Theorems: loadModels -/

theorem loadModelsLoop_eq (nh : ParamServer) (cam_frame fixed_frame : String) :
    ∀ (elems : List ModelElem) (renderers : List URDFRenderer),
      (∀ e ∈ elems, e ≠ ModelElem.malformed) →
      loadModelsLoop nh cam_frame fixed_frame elems renderers
        = some (renderers ++ elems.filterMap (rendererOf nh cam_frame fixed_frame)) := by
  intro elems
  induction elems with
  | nil => intro renderers _; simp [loadModelsLoop]
  | cons e rest ih =>
    intro renderers hwf
    have hrest : ∀ e ∈ rest, e ≠ ModelElem.malformed :=
      fun e he => hwf e (List.mem_cons_of_mem _ he)
    cases e with
    | malformed => exact absurd rfl (hwf _ (List.mem_cons_self _ _))
    | typeStruct description_param tfp =>
      cases hget : nh.getParam description_param with
      | some content =>
        by_cases hc : content = ""
        · simp [loadModelsLoop, rendererOf, resolveDescription, hget, hc, ih _ hrest]
        · simp [loadModelsLoop, rendererOf, resolveDescription, hget, hc, ih _ hrest]
      | none =>
        cases hsearch : nh.searchParam description_param with
        | none => simp [loadModelsLoop, rendererOf, resolveDescription, hget, hsearch, ih _ hrest]
        | some loc =>
          cases hloc : nh.getParam loc with
          | none =>
            simp [loadModelsLoop, rendererOf, resolveDescription, hget, hsearch, hloc,
              ih _ hrest]
          | some content =>
            by_cases hc : content = ""
            · simp [loadModelsLoop, rendererOf, resolveDescription, hget, hsearch, hloc, hc,
                ih _ hrest]
            · simp [loadModelsLoop, rendererOf, resolveDescription, hget, hsearch, hloc, hc,
                ih _ hrest]

/-- C9: when `models` is an array of structs, `loadModels` returns and
`renderers_` is the old list followed by one renderer for each element whose
description resolves (directly or through `searchParam`) to a non-empty
string, in array order, the other elements contributing nothing; when
`models` is not an array, `loadModels` returns with `renderers_` unchanged. -/
theorem C9_loadModels_appends_resolvable (s : RealtimeURDFFilter) :
    (∀ elems, s.nh_.models = ModelsParam.typeArray elems →
      (∀ e ∈ elems, e ≠ ModelElem.malformed) →
      (loadModels s).map (fun s1 => s1.renderers_)
        = some (s.renderers_
            ++ elems.filterMap (rendererOf s.nh_ s.cam_frame_ s.fixed_frame_))) ∧
    (s.nh_.models = ModelsParam.notArray →
      (loadModels s).map (fun s1 => s1.renderers_) = some s.renderers_) := by
  constructor
  · intro elems hm hwf
    simp [loadModels, hm, loadModelsLoop_eq _ _ _ elems _ hwf]
  · intro hm
    simp [loadModels, hm]

/-- C9, at a concrete input: of the four models of `mixedServer` the first
and the last are loaded, in this order. -/
theorem C9_loadModels_appends_resolvable_witness :
    (loadModels mixedFilter).map (fun s1 => s1.renderers_)
      = some [{ model_description := "<robot a/>", tfPrefix := "pa",
                cam_frame := "camera", fixed_frame := "base_link" },
              { model_description := "<robot d/>", tfPrefix := "pd",
                cam_frame := "camera", fixed_frame := "base_link" }] :=
  ((C9_loadModels_appends_resolvable mixedFilter).1 _ rfl (by decide)).trans (by decide)

/-! ## Theorems: rendering -/

theorem render_masked_depth (s : RealtimeURDFFilter) (glTf : Nat → ℚ) (env : FrameEnv)
    (hinit : s.fbo_initialized_ = true) (hlookup : env.lookupTransform.isSome = true) :
    (render s glTf env).masked_depth_ = filteredDepthAttachment s env := by
  obtain ⟨t, ht⟩ := Option.isSome_iff_exists.mp hlookup
  simp only [render, hinit, ht]
  simp only [Bool.not_true, Bool.false_eq_true, if_false]
  split <;> rfl

/-- C3 (as amended; the fragment program is modelled from the spec): on a
frame that `render` processes, at every pixel `i` the filtered depth read
back into `masked_depth_` is `filter_replace_value_` when the sensed depth
is non-zero and `sensedDepth - robotDepth <= depth_distance_threshold_`, and
the sensed depth unchanged otherwise (a zero sensed depth always passes
through); with tolerance 0.05 a non-zero depth at difference exactly 0.05
is replaced and one at difference 0.0501 passes through. -/
theorem C3_filtered_depth_per_pixel (s : RealtimeURDFFilter) (glTf : Nat → ℚ) (env : FrameEnv)
    (i : Nat) (hinit : s.fbo_initialized_ = true)
    (hlookup : env.lookupTransform.isSome = true) (hi : i < pixelCount s) :
    (render s glTf env).masked_depth_[i]?
      = some (if env.texelFetch s.depth_texture_ i ≠ 0 ∧
                env.texelFetch s.depth_texture_ i - env.robotDepth i
                  ≤ s.depth_distance_threshold_
              then s.filter_replace_value_
              else env.texelFetch s.depth_texture_ i) ∧
    (∀ sensedDepth robotDepth replace_value : ℚ, sensedDepth ≠ 0 →
      (sensedDepth - robotDepth = 5 / 100 →
        fragmentShader sensedDepth robotDepth (5 / 100) replace_value = replace_value) ∧
      (sensedDepth - robotDepth = 501 / 10000 →
        fragmentShader sensedDepth robotDepth (5 / 100) replace_value = sensedDepth)) := by
  constructor
  · rw [render_masked_depth s glTf env hinit hlookup]
    simp only [filteredDepthAttachment, List.getElem?_map, List.getElem?_range hi,
      Option.map_some', fragmentShader]
    by_cases h0 : env.texelFetch s.depth_texture_ i = 0
    · simp [h0]
    · by_cases hle : env.texelFetch s.depth_texture_ i - env.robotDepth i
          ≤ s.depth_distance_threshold_
      · simp [h0, hle]
      · simp [h0, hle]
  · intro sensedDepth robotDepth replace_value h0
    constructor
    · intro hd
      simp [fragmentShader, h0, hd]
    · intro hd
      have : ¬ ((501 : ℚ) / 10000 ≤ 5 / 100) := by norm_num
      simp [fragmentShader, h0, hd, this]

/-- C3, at a concrete input: sensed depth 3, rendered depth 2, tolerance
1/20: the sensed depth passes through. -/
theorem C3_filtered_depth_per_pixel_witness :
    (render { readyFilter 1 1 with filter_replace_value_ := 5, depth_texture_ := [3, 0, 0, 0] }
        identity16 exampleEnv).masked_depth_[0]?
      = some (3 : ℚ) :=
  ((C3_filtered_depth_per_pixel
      { readyFilter 1 1 with filter_replace_value_ := 5, depth_texture_ := [3, 0, 0, 0] }
      identity16 exampleEnv 0 rfl rfl (by decide)).1).trans
    (by norm_num [exampleEnv, readyFilter, construct])

/-- C3 (counterexample): a pixel whose sensed depth is 0, with rendered depth
2, tolerance 1/20 and replacement value 5: `sensedDepth - robotDepth <=
max_diff` holds, yet the filtered depth is 0, the sensed depth, not 5. -/
theorem C3_zero_depth_counterexample :
    exampleEnv.texelFetch zeroDepthFilter.depth_texture_ 0 - exampleEnv.robotDepth 0
      ≤ zeroDepthFilter.depth_distance_threshold_ ∧
    zeroDepthFilter.filter_replace_value_ = 5 ∧
    (render zeroDepthFilter identity16 exampleEnv).masked_depth_ = [0] ∧
    (render zeroDepthFilter identity16 exampleEnv).masked_depth_
      ≠ [zeroDepthFilter.filter_replace_value_] := by
  have h : (render zeroDepthFilter identity16 exampleEnv).masked_depth_ = [0] := by
    rw [render_masked_depth zeroDepthFilter identity16 exampleEnv rfl rfl]
    simp [filteredDepthAttachment, pixelCount, zeroDepthFilter, readyFilter, construct,
      exampleEnv, fragmentShader, List.range_succ]
  refine ⟨?_, rfl, h, ?_⟩
  · norm_num [exampleEnv, zeroDepthFilter, readyFilter, construct]
  · rw [h]
    norm_num [zeroDepthFilter]

/-! ## Theorems: initialisation -/

theorem initFrameBufferObject_fields (s : RealtimeURDFFilter) (env : FrameEnv) :
    (initFrameBufferObject s env).fbo_initialized_ = true ∧
    (initFrameBufferObject s env).fbo_ = some { width := s.width_, height := s.height_ } ∧
    (initFrameBufferObject s env).width_ = s.width_ ∧
    (initFrameBufferObject s env).height_ = s.height_ ∧
    (initFrameBufferObject s env).cam_frame_ = s.cam_frame_ ∧
    (initFrameBufferObject s env).fixed_frame_ = s.fixed_frame_ ∧
    (initFrameBufferObject s env).nh_ = s.nh_ ∧
    (initFrameBufferObject s env).renderers_ = s.renderers_ := by
  unfold initFrameBufferObject
  by_cases h1 : env.glError ≠ GL_NO_ERROR <;>
    by_cases h2 : env.framebufferStatus ≠ GL_FRAMEBUFFER_COMPLETE <;>
    simp [h1, h2]

theorem loadModels_fields (s s1 : RealtimeURDFFilter) (h : loadModels s = some s1) :
    s1.fbo_initialized_ = s.fbo_initialized_ ∧ s1.fbo_ = s.fbo_ ∧
    s1.width_ = s.width_ ∧ s1.height_ = s.height_ ∧ s1.cam_frame_ = s.cam_frame_ ∧
    s1.fixed_frame_ = s.fixed_frame_ ∧ s1.nh_ = s.nh_ := by
  unfold loadModels at h
  split at h
  · split at h
    · cases h; simp
    · cases h
  · cases h; simp

theorem glutSetup_fields (s : RealtimeURDFFilter) :
    (glutSetup s).width_ = s.width_ ∧ (glutSetup s).height_ = s.height_ ∧
    (glutSetup s).cam_frame_ = s.cam_frame_ ∧ (glutSetup s).fixed_frame_ = s.fixed_frame_ ∧
    (glutSetup s).nh_ = s.nh_ ∧ (glutSetup s).renderers_ = s.renderers_ := by
  unfold glutSetup
  cases s.gl_initialized <;> simp

theorem initGL_fields (s s1 : RealtimeURDFFilter) (env : FrameEnv) (h : initGL s env = some s1) :
    s1.fbo_initialized_ = true ∧
    s1.fbo_ = some { width := s.width_, height := s.height_ } ∧
    s1.width_ = s.width_ ∧ s1.height_ = s.height_ ∧ s1.cam_frame_ = s.cam_frame_ ∧
    s1.fixed_frame_ = s.fixed_frame_ ∧ s1.nh_ = s.nh_ := by
  unfold initGL at h
  simp only at h
  cases hload : loadModels (initFrameBufferObject (glutSetup s) env) with
  | none => rw [hload] at h; cases h
  | some s2 =>
    rw [hload] at h
    cases h
    obtain ⟨a1, a2, a3, a4, a5, a6, a7⟩ := loadModels_fields _ _ hload
    obtain ⟨b1, b2, b3, b4, b5, b6, b7, _⟩ := initFrameBufferObject_fields (glutSetup s) env
    obtain ⟨c1, c2, c3, c4, c5, _⟩ := glutSetup_fields s
    simp only [allocReadback]
    refine ⟨a1.trans b1, a2.trans (b2.trans ?_), a3.trans (b3.trans c1),
      a4.trans (b4.trans c2), a5.trans (b5.trans c3), a6.trans (b6.trans c4),
      a7.trans (b7.trans c5)⟩
    rw [c1, c2]

theorem render_fields (s : RealtimeURDFFilter) (glTf : Nat → ℚ) (env : FrameEnv) :
    pipelineState (render s glTf env) = pipelineState s ∧
    (render s glTf env).cam_frame_ = s.cam_frame_ ∧
    (render s glTf env).nh_ = s.nh_ ∧
    (render s glTf env).fixed_frame_ = s.fixed_frame_ := by
  unfold render
  cases hinit : s.fbo_initialized_ <;> cases hl : env.lookupTransform <;>
    cases hm : s.need_mask_ <;> simp [pipelineState, hinit, hm]

theorem render_lookup_fails (s : RealtimeURDFFilter) (glTf : Nat → ℚ) (env : FrameEnv)
    (h : env.lookupTransform = none) :
    (render s glTf env).masked_depth_ = s.masked_depth_ ∧
    (render s glTf env).mask_ = s.mask_ ∧
    (render s glTf env).gl_projection = s.gl_projection := by
  unfold render
  cases hinit : s.fbo_initialized_ <;> simp [h]

/-! ## Theorems: per-frame processing -/

theorem resizeIfChanged_same (s : RealtimeURDFFilter) (width height : Int) (env : FrameEnv)
    (hw : s.width_ = width) (hh : s.height_ = height) :
    resizeIfChanged s width height env = some s := by
  simp [resizeIfChanged, hw, hh]

theorem resizeIfChanged_fields (s s1 : RealtimeURDFFilter) (width height : Int) (env : FrameEnv)
    (h : resizeIfChanged s width height env = some s1) :
    s1.width_ = width ∧ s1.height_ = height ∧ s1.cam_frame_ = s.cam_frame_ ∧
    s1.nh_ = s.nh_ ∧ s1.fixed_frame_ = s.fixed_frame_ ∧
    ((s.width_ ≠ width ∨ s.height_ ≠ height) →
      s1.fbo_ = some { width := width, height := height } ∧ s1.fbo_initialized_ = true) ∧
    (¬ (s.width_ ≠ width ∨ s.height_ ≠ height) → s1 = s) := by
  unfold resizeIfChanged at h
  by_cases hc : s.width_ ≠ width ∨ s.height_ ≠ height
  · rw [if_pos hc] at h
    obtain ⟨a1, a2, a3, a4, a5, a6, a7⟩ := initGL_fields _ _ _ h
    exact ⟨a3, a4, a5, a7, a6, fun _ => ⟨a2, a1⟩, fun hn => absurd hc hn⟩
  · rw [if_neg hc] at h
    cases h
    have hw : s.width_ = width := by
      by_contra hne; exact hc (Or.inl hne)
    have hh : s.height_ = height := by
      by_contra hne; exact hc (Or.inr hne)
    exact ⟨hw, hh, rfl, rfl, rfl, fun hp => absurd hp hc, fun _ => rfl⟩

theorem resizeIfChanged_lookup_irrelevant (s : RealtimeURDFFilter) (width height : Int)
    (env : FrameEnv) (lookup : Option (Nat → ℚ)) :
    resizeIfChanged s width height { env with lookupTransform := lookup }
      = resizeIfChanged s width height env := rfl

theorem processFrame_fields (s : RealtimeURDFFilter) (buffer : List Nat) (glTf : Nat → ℚ)
    (env : FrameEnv) :
    pipelineState (processFrame s buffer glTf env) = pipelineState s ∧
    (processFrame s buffer glTf env).cam_frame_ = s.cam_frame_ ∧
    (processFrame s buffer glTf env).nh_ = s.nh_ ∧
    (processFrame s buffer glTf env).fixed_frame_ = s.fixed_frame_ := by
  unfold processFrame
  simp only
  obtain ⟨h1, h2, h3, h4⟩ := render_fields
    (textureBufferFromDepthBuffer { s with need_mask_ := decide (env.maskSubscribers > 0) }
      buffer (s.width_ * s.height_ * 4)) glTf env
  exact ⟨h1, h2, h3, h4⟩

theorem processFrame_lookup_fails (s : RealtimeURDFFilter) (buffer : List Nat) (glTf : Nat → ℚ)
    (env : FrameEnv) (h : env.lookupTransform = none) :
    (processFrame s buffer glTf env).masked_depth_ = s.masked_depth_ ∧
    (processFrame s buffer glTf env).mask_ = s.mask_ ∧
    (processFrame s buffer glTf env).gl_projection = s.gl_projection := by
  unfold processFrame
  simp only
  obtain ⟨h1, h2, h3⟩ := render_lookup_fails
    (textureBufferFromDepthBuffer { s with need_mask_ := decide (env.maskSubscribers > 0) }
      buffer (s.width_ * s.height_ * 4)) glTf env h
  exact ⟨h1, h2, h3⟩

/-- C7 (as amended): `initFrameBufferObject` marks the pipeline initialised
on every call, whatever `glGetError` and `glCheckFramebufferStatus` report:
afterwards `fbo_initialized_` is true and the render target has the stored
size; a rejection by the device is only written to the log, and `render`
passes its `fbo_initialized_` guard on the following frames (with a
successful pose lookup it reads back the filtered depth). -/
theorem C7_init_marks_initialized (s : RealtimeURDFFilter) (env : FrameEnv) :
    (initFrameBufferObject s env).fbo_initialized_ = true ∧
    (initFrameBufferObject s env).fbo_ = some { width := s.width_, height := s.height_ } ∧
    (env.glError ≠ GL_NO_ERROR →
      "OpenGL ERROR after FBO initialization" ∈ (initFrameBufferObject s env).log) ∧
    (env.framebufferStatus ≠ GL_FRAMEBUFFER_COMPLETE →
      "OpenGL FrameBuffer ERROR after FBO initialization" ∈ (initFrameBufferObject s env).log) ∧
    (∀ (glTf : Nat → ℚ) (env1 : FrameEnv), env1.lookupTransform.isSome = true →
      (render (initFrameBufferObject s env) glTf env1).masked_depth_
        = filteredDepthAttachment (initFrameBufferObject s env) env1) := by
  obtain ⟨h1, h2, _⟩ := initFrameBufferObject_fields s env
  refine ⟨h1, h2, ?_, ?_, ?_⟩
  · intro he
    unfold initFrameBufferObject
    by_cases h2 : env.framebufferStatus ≠ GL_FRAMEBUFFER_COMPLETE <;> simp [he, h2]
  · intro hs
    unfold initFrameBufferObject
    by_cases h1 : env.glError ≠ GL_NO_ERROR <;> simp [hs, h1]
  · intro glTf env1 hl
    exact render_masked_depth _ glTf env1 h1 hl

/-- C7, at a concrete input: the rejection by the device is in the log. -/
theorem C7_init_marks_initialized_witness :
    rejectingEnv.glError ≠ GL_NO_ERROR ∧
    "OpenGL ERROR after FBO initialization"
      ∈ (initFrameBufferObject (freshFilter 0 0) rejectingEnv).log :=
  ⟨by decide, (C7_init_marks_initialized (freshFilter 0 0) rejectingEnv).2.2.1 (by decide)⟩

/-- C7 (counterexample): the device rejects the render target (`glGetError`
reports an error and the frame buffer is not complete), and
`fbo_initialized_` is true, not false, after `initFrameBufferObject`. -/
theorem C7_rejected_target_counterexample :
    rejectingEnv.glError ≠ GL_NO_ERROR ∧
    rejectingEnv.framebufferStatus ≠ GL_FRAMEBUFFER_COMPLETE ∧
    (initFrameBufferObject (freshFilter 0 0) rejectingEnv).fbo_initialized_ = true ∧
    ¬ ((initFrameBufferObject (freshFilter 0 0) rejectingEnv).fbo_initialized_ = false) := by
  decide

/-- One call of `filter` from a state whose stored size differs from the
frame, or whose render target exists with the stored size: afterwards the
render target exists, was initialised with the size of the frame, and the
stored size is that of the frame. -/
theorem filter_render_target (s s1 : RealtimeURDFFilter) (buffer : List Nat) (glTf : Nat → ℚ)
    (width height : Int) (timestamp : Nat) (env : FrameEnv) (out : List OutImage)
    (h : filter s buffer glTf width height timestamp env = some (s1, out))
    (hpre : (s.width_ ≠ width ∨ s.height_ ≠ height) ∨
      (s.fbo_ = some { width := s.width_, height := s.height_ } ∧ s.fbo_initialized_ = true)) :
    s1.fbo_ = some { width := width, height := height } ∧ s1.fbo_initialized_ = true ∧
    s1.width_ = width ∧ s1.height_ = height := by
  unfold filter at h
  cases hr : resizeIfChanged s width height env with
  | none => rw [hr] at h; cases h
  | some s0 =>
    rw [hr] at h
    cases h
    obtain ⟨a1, a2, _, _, _, a6, a7⟩ := resizeIfChanged_fields s s0 width height env hr
    obtain ⟨b1, _⟩ := processFrame_fields s0 buffer glTf env
    simp only [pipelineState, Prod.mk.injEq] at b1
    obtain ⟨b11, b12, b13, b14, _⟩ := b1
    rw [b11, b12, b13, b14]
    by_cases hc : s.width_ ≠ width ∨ s.height_ ≠ height
    · exact ⟨(a6 hc).1, (a6 hc).2, a1, a2⟩
    · have hs : s0 = s := a7 hc
      rcases hpre with hd | ⟨hf, hi⟩
      · exact absurd hd hc
      · subst hs
        rw [a1, a2] at hf
        exact ⟨hf, hi, a1, a2⟩

/-- From a state whose render target exists with the stored size, every
sequence of frames leaves a render target of the stored size, which is the
size of the last frame. -/
theorem filterFrames_render_target (buffer : List Nat) (glTf : Nat → ℚ) :
    ∀ (frames : List ((Int × Int) × FrameEnv)) (s sN : RealtimeURDFFilter),
      (s.fbo_ = some { width := s.width_, height := s.height_ } ∧ s.fbo_initialized_ = true) →
      filterFrames buffer glTf s frames = some sN →
      (sN.fbo_ = some { width := sN.width_, height := sN.height_ } ∧
        sN.fbo_initialized_ = true) ∧
      (∀ d ∈ frames.getLast?, sN.width_ = d.1.1 ∧ sN.height_ = d.1.2) := by
  intro frames
  induction frames with
  | nil =>
    intro s sN hinv h
    simp only [filterFrames, Option.some.injEq] at h
    subst h
    exact ⟨hinv, by simp⟩
  | cons f rest ih =>
    intro s sN hinv h
    obtain ⟨dims, env⟩ := f
    simp only [filterFrames] at h
    cases hf : filter s buffer glTf dims.1 dims.2 0 env with
    | none => rw [hf] at h; cases h
    | some r =>
      obtain ⟨s1, out⟩ := r
      rw [hf] at h
      simp only at h
      obtain ⟨c1, c2, c3, c4⟩ := filter_render_target s s1 buffer glTf dims.1 dims.2 0 env out hf
        (Or.inr hinv)
      have hinv1 : s1.fbo_ = some { width := s1.width_, height := s1.height_ } ∧
          s1.fbo_initialized_ = true := by
        rw [c3, c4]; exact ⟨c1, c2⟩
      obtain ⟨d1, d2⟩ := ih s1 sN hinv1 h
      refine ⟨d1, ?_⟩
      intro d hd
      cases rest with
      | nil =>
        simp only [filterFrames, Option.some.injEq] at h
        subst h
        simp only [List.getLast?_singleton, Option.mem_def, Option.some.injEq] at hd
        subst hd
        exact ⟨c3, c4⟩
      | cons g rest1 =>
        rw [List.getLast?_cons_cons] at hd
        exact d2 d hd

/-- From a freshly constructed filter whose unassigned `width_`, `height_`
differ from the size of the first frame, every non-empty sequence of frames
leaves a render target of the size of the last frame. -/
theorem construct_filterFrames_render_target (buffer : List Nat) (glTf : Nat → ℚ)
    (nh : ParamServer) (fixed_frame camera_frame : String) (threshold : ℚ) (show_gui : Bool)
    (replace_value : ℚ) (width0 height0 : Int) (dims : Int × Int) (env : FrameEnv)
    (rest : List ((Int × Int) × FrameEnv)) (sN : RealtimeURDFFilter)
    (hfirst : width0 ≠ dims.1 ∨ height0 ≠ dims.2)
    (h : filterFrames buffer glTf
      (construct nh fixed_frame camera_frame threshold show_gui replace_value width0 height0)
      ((dims, env) :: rest) = some sN) :
    (sN.fbo_ = some { width := sN.width_, height := sN.height_ } ∧
      sN.fbo_initialized_ = true) ∧
    (∀ d ∈ ((dims, env) :: rest).getLast?, sN.width_ = d.1.1 ∧ sN.height_ = d.1.2) := by
  simp only [filterFrames] at h
  cases hf : filter (construct nh fixed_frame camera_frame threshold show_gui replace_value
      width0 height0) buffer glTf dims.1 dims.2 0 env with
  | none => rw [hf] at h; cases h
  | some r =>
    obtain ⟨s1, out⟩ := r
    rw [hf] at h
    simp only at h
    obtain ⟨c1, c2, c3, c4⟩ := filter_render_target _ s1 buffer glTf dims.1 dims.2 0 env out hf
      (Or.inl hfirst)
    have hinv1 : s1.fbo_ = some { width := s1.width_, height := s1.height_ } ∧
        s1.fbo_initialized_ = true := by
      rw [c3, c4]; exact ⟨c1, c2⟩
    obtain ⟨d1, d2⟩ := filterFrames_render_target buffer glTf rest s1 sN hinv1 h
    refine ⟨d1, ?_⟩
    intro d hd
    cases rest with
    | nil =>
      simp only [filterFrames, Option.some.injEq] at h
      subst h
      simp only [List.getLast?_singleton, Option.mem_def, Option.some.injEq] at hd
      subst hd
      exact ⟨c3, c4⟩
    | cons g rest1 =>
      rw [List.getLast?_cons_cons] at hd
      exact d2 d hd

/-- C4 (the code at the failing input): a freshly constructed filter whose
unassigned `width_`, `height_` hold 640 and 480 receives a first frame of
640 x 480: `initGL` does not run, and after the call no render target exists
and the pipeline is not initialised. -/
theorem C4_first_frame_at_failing_input :
    (filter (freshFilter 640 480) [] identity16 640 480 0 exampleEnv).map
        (fun r => pipelineState r.1)
      = some (false, none, 640, 480, []) := by
  rw [filter, resizeIfChanged_same (freshFilter 640 480) 640 480 exampleEnv rfl rfl]
  simp only [Option.map_some', (processFrame_fields _ _ _ _).1]
  rfl

/-- Every run of `initGL` appends the loadable models to `renderers_` once
more: the renderers already present stay, and one renderer per resolvable
element of `models` is added after them. -/
theorem initGL_renderers (s s1 : RealtimeURDFFilter) (env : FrameEnv)
    (elems : List ModelElem) (hm : s.nh_.models = ModelsParam.typeArray elems)
    (h : initGL s env = some s1) :
    s1.renderers_
      = s.renderers_ ++ elems.filterMap (rendererOf s.nh_ s.cam_frame_ s.fixed_frame_) := by
  obtain ⟨_, _, c3, c4, c5, c6⟩ := glutSetup_fields s
  obtain ⟨_, _, _, _, b5, b6, b7, b8⟩ := initFrameBufferObject_fields (glutSetup s) env
  have hnh : (initFrameBufferObject (glutSetup s) env).nh_ = s.nh_ := b7.trans c5
  have hcam : (initFrameBufferObject (glutSetup s) env).cam_frame_ = s.cam_frame_ :=
    b5.trans c3
  have hfix : (initFrameBufferObject (glutSetup s) env).fixed_frame_ = s.fixed_frame_ :=
    b6.trans c4
  have hren : (initFrameBufferObject (glutSetup s) env).renderers_ = s.renderers_ :=
    b8.trans c6
  unfold initGL at h
  simp only at h
  cases hload : loadModels (initFrameBufferObject (glutSetup s) env) with
  | none => rw [hload] at h; cases h
  | some s2 =>
    rw [hload] at h
    cases h
    unfold loadModels at hload
    rw [hnh, hm] at hload
    simp only [hcam, hfix, hren] at hload
    cases hloop : loadModelsLoop s.nh_ s.cam_frame_ s.fixed_frame_ elems s.renderers_ with
    | none => rw [hloop] at hload; cases hload
    | some rs =>
      rw [hloop] at hload
      cases hload
      simp only [allocReadback]
      by_cases hwf : ∀ e ∈ elems, e ≠ ModelElem.malformed
      · rw [loadModelsLoop_eq _ _ _ elems _ hwf] at hloop
        cases hloop
        rfl
      · exfalso
        have hnone : ∀ (es : List ModelElem) (acc : List URDFRenderer),
            (¬ ∀ e ∈ es, e ≠ ModelElem.malformed) →
            loadModelsLoop s.nh_ s.cam_frame_ s.fixed_frame_ es acc = none := by
          intro es
          induction es with
          | nil => intro acc hbad; exact absurd (fun e he => by cases he) hbad
          | cons e rest ih =>
            intro acc hbad
            cases e with
            | malformed => simp [loadModelsLoop]
            | typeStruct d t =>
              have hrest : ¬ ∀ e ∈ rest, e ≠ ModelElem.malformed := by
                intro hall
                apply hbad
                intro e he
                rcases List.mem_cons.mp he with rfl | hr
                · intro hcontra; cases hcontra
                · exact hall e hr
              unfold loadModelsLoop
              simp only
              split
              · exact ih _ hrest
              · split
                · exact ih _ hrest
                · exact ih _ hrest
        rw [hnone elems s.renderers_ hwf] at hloop
        cases hloop

/-- C6 (the code at the failing input): with one entry in `models`, frames of
sizes 4 x 3, 2 x 2, 4 x 3 leave three renderers in `renderers_`: every change
of resolution runs `loadModels` again and appends the model once more. -/
theorem C6_models_reloaded_at_failing_input :
    exampleServer.models = ModelsParam.typeArray [ModelElem.typeStruct "robot_description" ""] ∧
    (filterFrames [] identity16 (freshFilter 0 0)
        [((4, 3), exampleEnv), ((2, 2), exampleEnv), ((4, 3), exampleEnv)]).map
        (fun s => s.renderers_.length)
      = some 3 := by
  decide

/-- C2 (as amended): on a frame whose pose lookup fails, the pipeline state
(initialised flag, render target, stored width and height, renderers) after
`filter` is the one a successful lookup would leave; when the frame has the
stored size, `filter` returns and that state is the state before the frame;
`render` reads nothing back: the read-back buffers and the GL projection
matrix are as they were when `render` was called; and with no consumer
attached nothing is published. -/
theorem C2_lookup_failure_leaves_pipeline_state (s : RealtimeURDFFilter) (buffer : List Nat)
    (glTf : Nat → ℚ) (width height : Int) (timestamp : Nat) (env : FrameEnv)
    (hfail : env.lookupTransform = none) :
    (∀ tr : Nat → ℚ,
      (filter s buffer glTf width height timestamp env).map (fun r => pipelineState r.1)
        = (filter s buffer glTf width height timestamp
            { env with lookupTransform := some tr }).map (fun r => pipelineState r.1)) ∧
    (s.width_ = width → s.height_ = height →
      ∃ s1 out, filter s buffer glTf width height timestamp env = some (s1, out) ∧
        pipelineState s1 = pipelineState s ∧ s1.masked_depth_ = s.masked_depth_ ∧
        s1.mask_ = s.mask_ ∧ s1.gl_projection = s.gl_projection) ∧
    (∀ s1 out, filter s buffer glTf width height timestamp env = some (s1, out) →
      ∃ s0, resizeIfChanged s width height env = some s0 ∧
        s1.masked_depth_ = s0.masked_depth_ ∧ s1.mask_ = s0.mask_ ∧
        s1.gl_projection = s0.gl_projection) ∧
    (env.depthSubscribers = 0 → env.maskSubscribers = 0 →
      ∀ s1 out, filter s buffer glTf width height timestamp env = some (s1, out) →
        out = []) := by
  refine ⟨?_, ?_, ?_, ?_⟩
  · intro tr
    unfold filter
    rw [resizeIfChanged_lookup_irrelevant s width height env (some tr)]
    cases resizeIfChanged s width height env with
    | none => rfl
    | some s0 =>
      simp only [Option.map_some', (processFrame_fields _ _ _ _).1]
  · intro hw hh
    refine ⟨processFrame s buffer glTf env,
      publishOutputs (processFrame s buffer glTf env) timestamp env, ?_,
      (processFrame_fields s buffer glTf env).1, ?_⟩
    · rw [filter, resizeIfChanged_same s width height env hw hh]
    · exact processFrame_lookup_fails s buffer glTf env hfail
  · intro s1 out h
    unfold filter at h
    cases hr : resizeIfChanged s width height env with
    | none => rw [hr] at h; cases h
    | some s0 =>
      rw [hr] at h
      cases h
      exact ⟨s0, rfl, processFrame_lookup_fails s0 buffer glTf env hfail⟩
  · intro hd hm s1 out h
    unfold filter at h
    cases hr : resizeIfChanged s width height env with
    | none => rw [hr] at h; cases h
    | some s0 =>
      rw [hr] at h
      cases h
      simp [publishOutputs, hd, hm]

/-- C2, at a concrete input: a 2 x 1 frame with a failing lookup on a ready
2 x 1 filter. -/
theorem C2_lookup_failure_leaves_pipeline_state_witness :
    lookupFailsEnv.lookupTransform = none ∧
    ∃ s1 out, filter (readyFilter 2 1) [3, 0, 0, 0, 4, 0, 0, 0] identity16 2 1 42 lookupFailsEnv
        = some (s1, out) ∧
      pipelineState s1 = pipelineState (readyFilter 2 1) ∧
      s1.masked_depth_ = (readyFilter 2 1).masked_depth_ ∧
      s1.mask_ = (readyFilter 2 1).mask_ ∧
      s1.gl_projection = (readyFilter 2 1).gl_projection :=
  ⟨rfl, (C2_lookup_failure_leaves_pipeline_state (readyFilter 2 1) [3, 0, 0, 0, 4, 0, 0, 0]
    identity16 2 1 42 lookupFailsEnv rfl).2.1 rfl rfl⟩

/-- C2 (counterexample): the pose lookup fails, one consumer is attached to
the depth output, and `filter` publishes a depth image for the frame (the
previous content `7 7` of `masked_depth_` under the new time stamp 42); and
a failed frame of a new size 4 x 1 leaves another stored width and render
target than before the frame. -/
theorem C2_lookup_failure_counterexample :
    lookupFailsEnv.lookupTransform = none ∧
    (filter (readyFilter 2 1) [3, 0, 0, 0, 4, 0, 0, 0] identity16 2 1 42 lookupFailsEnv).map
        (fun r => r.2.map (fun img => (img.topic, img.stamp, img.pixels)))
      = some [("output", 42, [7, 7])] ∧
    (filter (readyFilter 2 1) [] identity16 4 1 43 lookupFailsEnv).map
        (fun r => (r.1.width_, r.1.fbo_))
      = some (4, some { width := 4, height := 1 }) ∧
    (readyFilter 2 1).width_ = 2 := by
  refine ⟨rfl, ?_, by decide, rfl⟩
  rw [filter, resizeIfChanged_same (readyFilter 2 1) 2 1 lookupFailsEnv rfl rfl]
  simp only [Option.map_some', publishOutputs,
    (processFrame_lookup_fails (readyFilter 2 1) _ identity16 lookupFailsEnv rfl).1]
  simp [lookupFailsEnv, exampleEnv, readyFilter, construct, List.replicate]

theorem filter_published (s s1 : RealtimeURDFFilter) (buffer : List Nat) (glTf : Nat → ℚ)
    (width height : Int) (timestamp : Nat) (env : FrameEnv) (out : List OutImage)
    (h : filter s buffer glTf width height timestamp env = some (s1, out)) :
    s1.width_ = width ∧ s1.height_ = height ∧ s1.cam_frame_ = s.cam_frame_ ∧
    out = publishOutputs s1 timestamp env := by
  unfold filter at h
  cases hr : resizeIfChanged s width height env with
  | none => rw [hr] at h; cases h
  | some s0 =>
    rw [hr] at h
    cases h
    obtain ⟨a1, a2, a3, _⟩ := resizeIfChanged_fields s s0 width height env hr
    obtain ⟨b1, b2, _⟩ := processFrame_fields s0 buffer glTf env
    simp only [pipelineState, Prod.mk.injEq] at b1
    exact ⟨b1.2.2.1.trans a1, b1.2.2.2.1.trans a2, b2.trans a3, rfl⟩

/-- C5 (as amended): every filtered depth image (topic `output`) that
`filter_callback` publishes for an input depth frame has the width and the
height of the input frame, its time stamp, the encoding `32FC1`, and as frame
id the configured `camera_frame` (`cam_frame_`), whatever frame id the header
of the input carries. -/
theorem C5_published_depth_header (s s1 : RealtimeURDFFilter) (ros_depth_image : Image)
    (camera_info : Option CameraInfo) (glTf0 : Nat → ℚ) (env : FrameEnv)
    (out : List OutImage) (img : OutImage)
    (h : filter_callback s ros_depth_image camera_info glTf0 env = some (s1, out))
    (himg : img ∈ out) (htopic : img.topic = "output") :
    img.width = (ros_depth_image.width : Int) ∧ img.height = (ros_depth_image.height : Int) ∧
    img.stamp = ros_depth_image.stamp ∧ img.encoding = "32FC1" ∧
    img.frame_id = s.cam_frame_ := by
  unfold filter_callback at h
  cases hcv : toCvShare ros_depth_image with
  | none =>
    rw [hcv] at h
    cases h
    cases himg
  | some depth_image =>
    rw [hcv] at h
    simp only at h
    obtain ⟨hw, hh, hc, hout⟩ := filter_published _ _ _ _ _ _ _ _ _ h
    unfold toCvShare at hcv
    split at hcv
    · cases hcv
      subst hout
      simp only [publishOutputs, List.mem_append] at himg
      rcases himg with hd | hm
      · split at hd
        · rw [List.mem_singleton] at hd
          subst hd
          exact ⟨hw, hh, rfl, rfl, hc⟩
        · cases hd
      · split at hm
        · rw [List.mem_singleton] at hm
          subst hm
          simp at htopic
        · cases hm
    · cases hcv

/-- C5, at a concrete input: the depth image published for
`otherFrameImage` by a ready 2 x 1 filter. -/
theorem C5_published_depth_header_witness :
    ({ topic := "output", frame_id := "camera", stamp := 42, encoding := "32FC1",
       height := 1, width := 2,
       pixels := (processFrame (readyFilter 2 1) [3, 0, 0, 0, 4, 0, 0, 0]
         (getProjectionMatrix (readyFilter 2 1) none identity16) exampleEnv).masked_depth_,
       bytes := [] } : OutImage).frame_id = (readyFilter 2 1).cam_frame_ :=
  (C5_published_depth_header (readyFilter 2 1)
    (processFrame (readyFilter 2 1) [3, 0, 0, 0, 4, 0, 0, 0]
      (getProjectionMatrix (readyFilter 2 1) none identity16) exampleEnv)
    otherFrameImage none identity16 exampleEnv
    [{ topic := "output", frame_id := "camera", stamp := 42, encoding := "32FC1",
       height := 1, width := 2,
       pixels := (processFrame (readyFilter 2 1) [3, 0, 0, 0, 4, 0, 0, 0]
         (getProjectionMatrix (readyFilter 2 1) none identity16) exampleEnv).masked_depth_,
       bytes := [] }]
    _ rfl (List.mem_singleton.mpr rfl) rfl).2.2.2.2

/-- C5 (counterexample): the input frame carries the frame id `other_frame`,
the filter is configured with camera frame `camera`; the depth image
published for the frame has frame id `camera`, not `other_frame`. -/
theorem C5_frame_id_counterexample :
    otherFrameImage.frame_id = "other_frame" ∧
    (filter_callback (readyFilter 2 1) otherFrameImage none identity16 exampleEnv).map
        (fun r => r.2.map (fun img => (img.topic, img.frame_id, img.stamp, img.width, img.height)))
      = some [("output", "camera", 42, 2, 1)] := by
  decide

/-! ## Theorems: the horizontal axis and the matrix of a frame -/

/-- C11: with `fx > 0` and `cx` the values `getProjectionMatrix` uses
(`fx = P[0] * 0.5`, `cx = P[2] * 0.5`), `width_ > 0` and a camera-space point
`(x, y, z)` with `z > 0`, the matrix has `glTf[0] = -2 * fx / W`,
`glTf[8] = 2 * (0.5 - cx / W)`, `glTf[11] = -1`, and applied after the view
transform of `render` it gives the normalized device coordinate
`x = 2 * u / W - 1` for the pinhole column `u = fx * x / z + cx`. -/
theorem C11_horizontal_flip_compensated (s : RealtimeURDFFilter) (info : CameraInfo)
    (glTf0 : Nat → ℚ) (x y z : ℚ) (_hfx : 0 < info.P 0 * (1 / 2)) (hW : 0 < s.width_)
    (hz : 0 < z) :
    getProjectionMatrix s (some info) glTf0 0 = -2 * (info.P 0 * (1 / 2)) / (s.width_ : ℚ) ∧
    getProjectionMatrix s (some info) glTf0 8
      = 2 * (1 / 2 - info.P 2 * (1 / 2) / (s.width_ : ℚ)) ∧
    getProjectionMatrix s (some info) glTf0 11 = -1 ∧
    ndcX (getProjectionMatrix s (some info) glTf0) x y z
      = 2 * pinholePixel (info.P 0 * (1 / 2)) (info.P 2 * (1 / 2)) x z / (s.width_ : ℚ) - 1 := by
  have hWq : (s.width_ : ℚ) ≠ 0 := by
    have : (0 : ℚ) < (s.width_ : ℚ) := by exact_mod_cast hW
    exact ne_of_gt this
  have hzq : z ≠ 0 := ne_of_gt hz
  refine ⟨?_, ?_, ?_, ?_⟩
  · simp [getProjectionMatrix, setIdx]
  · simp [getProjectionMatrix, setIdx]
  · simp [getProjectionMatrix, setIdx]
  · obtain ⟨hx, _, hw⟩ := clipCoords_getProjectionMatrix s info glTf0 x y z
    rw [ndcX, hx, hw, pinholePixel]
    field_simp
    ring

/-- C11, at a concrete input: `fx = 525`, `cx = 320`, a 640 x 480 filter and
the point `(1, 2, 4)`, whose pinhole column is `451.25`. -/
theorem C11_horizontal_flip_compensated_witness :
    ndcX (getProjectionMatrix (readyFilter 640 480)
        (some (CameraInfo.ofCalibration 1050 1050 640 576)) identity16) 1 2 4
      = 2 * pinholePixel (1050 * (1 / 2)) (640 * (1 / 2)) 1 4 / 640 - 1 :=
  (C11_horizontal_flip_compensated (readyFilter 640 480)
    (CameraInfo.ofCalibration 1050 1050 640 576) identity16 1 2 4
    (by norm_num [CameraInfo.ofCalibration]) (by decide) (by norm_num)).2.2.2

theorem renderProjection_apply (glTf : Nat → ℚ) (i : Nat) (h : i < 16) :
    renderProjection glTf i = glTf i := by
  interval_cases i <;> simp [renderProjection, glMultMatrixd, entry, identity16]

theorem render_gl_projection (s : RealtimeURDFFilter) (glTf : Nat → ℚ) (env : FrameEnv)
    (hinit : s.fbo_initialized_ = true) (hlookup : env.lookupTransform.isSome = true) :
    (render s glTf env).gl_projection = renderProjection glTf := by
  obtain ⟨t, ht⟩ := Option.isSome_iff_exists.mp hlookup
  simp only [render, hinit, ht]
  simp only [Bool.not_true, Bool.false_eq_true, if_false]
  split <;> rfl

/-- The matrix `filter_callback` hands to `render`: the one
`getProjectionMatrix` writes for the state before the frame, that is with the
stored `width_`, `height_` of the previous frame. When the frame is rendered
this is the projection matrix that is loaded. -/
theorem filter_callback_gl_projection (s s1 : RealtimeURDFFilter) (ros_depth_image : Image)
    (camera_info : Option CameraInfo) (glTf0 : Nat → ℚ) (env : FrameEnv) (out : List OutImage)
    (henc : ros_depth_image.encoding = "32FC1")
    (h : filter_callback s ros_depth_image camera_info glTf0 env = some (s1, out))
    (hinit : s1.fbo_initialized_ = true) (hlookup : env.lookupTransform.isSome = true) :
    s1.gl_projection = renderProjection (getProjectionMatrix s camera_info glTf0) := by
  unfold filter_callback at h
  simp only [toCvShare, henc, if_true] at h
  unfold filter at h
  cases hr : resizeIfChanged s (ros_depth_image.width : Int) (ros_depth_image.height : Int)
      env with
  | none => rw [hr] at h; cases h
  | some s0 =>
    rw [hr] at h
    cases h
    obtain ⟨b1, _⟩ := processFrame_fields s0
      (bufferFromDepthImage (fun _ => 0)
        { rows := ros_depth_image.height, cols := ros_depth_image.width,
          step := ros_depth_image.step, data := ros_depth_image.data })
      (getProjectionMatrix s camera_info glTf0) env
    simp only [pipelineState, Prod.mk.injEq] at b1
    have hinit0 : s0.fbo_initialized_ = true := b1.1.symm.trans hinit
    unfold processFrame
    exact render_gl_projection _ _ env hinit0 hlookup

/-- On a frame that has the stored size, the matrix `getProjectionMatrix`
writes is the one synthesized with the width and height of the frame. -/
theorem getProjectionMatrix_same_size (s : RealtimeURDFFilter) (ros_depth_image : Image)
    (camera_info : Option CameraInfo) (glTf0 : Nat → ℚ)
    (hw : s.width_ = (ros_depth_image.width : Int))
    (hh : s.height_ = (ros_depth_image.height : Int)) :
    getProjectionMatrix s camera_info glTf0
      = matrixForFrame s ros_depth_image camera_info glTf0 := by
  cases camera_info with
  | none => rfl
  | some info => simp [matrixForFrame, getProjectionMatrix, hw, hh]

/-- C12 (the code at the failing input): a filter set up for 640 x 480 frames
receives a 320 x 240 frame with `fx = fy = 525` in the synthesizer. The frame
is rendered at 320 x 240 with the matrix written for the stored size 640 x
480, `glTf[0] = -105/64` and `glTf[5] = 35/16`, while the matrix synthesized
with the size of the frame has `glTf[0] = -105/32` and `glTf[5] = 35/8`. -/
theorem C12_stale_size_at_failing_input :
    (filter_callback (readyFilter 640 480) halfSizeImage
        (some (CameraInfo.ofCalibration 1050 1050 640 576)) identity16 exampleEnv).map
        (fun r => (r.1.width_, r.1.height_, r.1.gl_projection 0, r.1.gl_projection 5))
      = some (320, 240, -105 / 64, 35 / 16) ∧
    matrixForFrame (readyFilter 640 480) halfSizeImage
        (some (CameraInfo.ofCalibration 1050 1050 640 576)) identity16 0 = -105 / 32 ∧
    matrixForFrame (readyFilter 640 480) halfSizeImage
        (some (CameraInfo.ofCalibration 1050 1050 640 576)) identity16 5 = 35 / 8 := by
  refine ⟨?_, ?_, ?_⟩
  · have hstate : (filter_callback (readyFilter 640 480) halfSizeImage
        (some (CameraInfo.ofCalibration 1050 1050 640 576)) identity16 exampleEnv).map
        (fun r => (r.1.width_, r.1.height_, r.1.fbo_initialized_)) = some (320, 240, true) := by
      decide
    cases hfc : filter_callback (readyFilter 640 480) halfSizeImage
        (some (CameraInfo.ofCalibration 1050 1050 640 576)) identity16 exampleEnv with
    | none => rw [hfc] at hstate; cases hstate
    | some r =>
      obtain ⟨s1, out⟩ := r
      rw [hfc] at hstate
      simp only [Option.map_some', Option.some.injEq, Prod.mk.injEq] at hstate
      obtain ⟨hw, hh, hinit⟩ := hstate
      have hproj := filter_callback_gl_projection (readyFilter 640 480) s1 halfSizeImage
        (some (CameraInfo.ofCalibration 1050 1050 640 576)) identity16 exampleEnv out rfl hfc
        hinit rfl
      simp only [Option.map_some', Option.some.injEq, Prod.mk.injEq, hw, hh, hproj,
        renderProjection_apply _ 0 (by decide), renderProjection_apply _ 5 (by decide),
        true_and]
      constructor <;>
        norm_num [getProjectionMatrix, setIdx, readyFilter, construct, CameraInfo.ofCalibration]
  · norm_num [matrixForFrame, getProjectionMatrix, setIdx, halfSizeImage,
      CameraInfo.ofCalibration]
  · norm_num [matrixForFrame, getProjectionMatrix, setIdx, halfSizeImage,
      CameraInfo.ofCalibration]

end UrdfFilter
